import Mathlib

/-!
Verification of the event-dispatch and command-routing layer of
pymino/ext/context.py (Boopymino).

Python strings are embedded as lists of characters (`Str`), so that the
slicing and tokenizing done by the command router (content[len(prefix):],
split(" ")[0], content[a:]) becomes List.take / List.drop / List.takeWhile
with their usual lemmas.

Attributes that may be missing on a platform entity (message content, the
author object, its username / userId fields) are embedded as `Option`:
a direct attribute access on a missing value raises AttributeError, while
an access wrapped in try/except AttributeError yields Python None.

Handlers are opaque callables; we embed one as an id, the list of parameter
names its signature declares (what inspect.signature reports), and the
outcome of calling it (`raises`: the exception the call raises, if any).
Invoking a handler is recorded as an observable `Action`.
-/

deriving instance DecidableEq for Except

namespace Boopymino

/-- Python strings as lists of characters. -/
abbrev Str := List Char

/-- Coerce a Lean string literal to the character-list embedding. -/
def str (s : String) : Str := s.data

/-- Exceptions that the embedded code can raise. -/
inductive PyError
  | keyError
  | attributeError
  | intentsNotEnabled
  | commandNotFound
deriving DecidableEq

/-- The author object carried by a message (entities.MessageAuthor).
Fields are optional: a missing field raises AttributeError on direct
access and becomes None under try/except. -/
structure MessageAuthor where
  username : Option Str
  userId : Option Str
deriving DecidableEq

/-- The triggering message (entities.Message): the fields the dispatch
layer reads. `author = none` embeds a payload with no author object. -/
structure Message where
  content : Option Str
  author : Option MessageAuthor
  chatId : Str
deriving DecidableEq

/-- Context: per-event facade over the triggering message
(Context.__init__ keeps the message and the intents flag; the session
handle plays no part in dispatch logic). -/
structure Context where
  message : Message
  intents : Bool
deriving DecidableEq

/-- Context.author: `with suppress(AttributeError): return self.message.author`
- a missing author yields None instead of raising. -/
def Context.author (c : Context) : Option MessageAuthor := c.message.author

/-- A registered callable: its identity, the parameter names declared by
its signature, and the exception its body raises when called (if any). -/
structure Handler where
  id : Nat
  params : List Str
  raises : Option PyError
deriving DecidableEq

/-- A value supplied to a handler parameter by the parameter resolver. -/
inductive Param
  | ctx
  | member (a : MessageAuthor)
  | str (s : Str)
  | none
deriving DecidableEq

/-- Wrap an optional string the way Python passes it: the string itself or None. -/
def optParam : Option Str → Param
  | Option.some s => Param.str s
  | Option.none => Param.none

/-- EventHandler._set_parameters.  The override `message` models the third
positional argument: the command router passes the remainder string, the
generic event path passes the Message object itself, which fails the
`isinstance(message, str)` test and falls back to context.message.content
(so the generic path is embedded with override = none).  username and
userId are read under try/except AttributeError and default to None, but
the `potential_parameters` dict evaluates `Member(context.author.json())`
unconditionally, so a missing author raises AttributeError no matter which
parameters the handler declares. -/
def set_parameters (c : Context) (params : List Str) (message : Option Str) :
    Except PyError (List Param) :=
  let message := message.orElse (fun _ => c.message.content)
  let username := c.author.bind (fun a => a.username)
  let userId := c.author.bind (fun a => a.userId)
  match c.author with
  | Option.none => Except.error PyError.attributeError
  | Option.some a =>
      Except.ok (params.map (fun p =>
        if p = str "ctx" then Param.ctx
        else if p = str "member" then Param.member a
        else if p = str "message" then optParam message
        else if p = str "username" then optParam username
        else if p = str "userId" then optParam userId
        else Param.none))

/-- The value the potential_parameters dict of _set_parameters associates
with a declared name, for an author-bearing context (helper for stating
the resolver theorems). -/
def resolveOne (c : Context) (om : Option Str) (a : MessageAuthor) (p : Str) : Param :=
  if p = str "ctx" then Param.ctx
  else if p = str "member" then Param.member a
  else if p = str "message" then optParam (om.orElse (fun _ => c.message.content))
  else if p = str "username" then optParam a.username
  else if p = str "userId" then optParam a.userId
  else Param.none

/-- Modelled from the spec: the Command entry of utilities/commands.py is
not under src; section 3 gives `{name, description, usage, aliases,
cooldown, handler}`. -/
structure Command where
  name : Str
  description : Option Str
  usage : Option Str
  aliases : List Str
  cooldown : Nat
  handler : Handler
deriving DecidableEq

/-- Modelled from the spec: the Commands table of utilities/commands.py is
not under src; section 3 gives the command list plus the cooldown records
keyed by (command name, userId) holding absolute expiry timestamps. -/
structure Commands where
  commands : List Command
  cooldowns : List ((Str × Str) × Nat)
deriving DecidableEq

/-- Modelled from the spec: `__command_names__` - the canonical names. -/
def Commands.names (cs : Commands) : List Str :=
  cs.commands.map (fun c => c.name)

/-- Modelled from the spec: `__command_aliases__` - the secondary
alias-to-canonical-name lookup of section 4.1. -/
def Commands.aliasPairs (cs : Commands) : List (Str × Str) :=
  cs.commands.flatMap (fun c => c.aliases.map (fun a => (a, c.name)))

/-- Modelled from the spec: resolveAlias of section 4.1 - an alias maps to
the owning command name, anything else is returned unchanged.  The source
realizes this as `dict(aliases).get(token, token)`. -/
def Commands.resolveAlias (cs : Commands) (tok : Str) : Str :=
  (cs.aliasPairs.lookup tok).getD tok

/-- EventHandler.command_exists: name is a canonical name or a known alias. -/
def command_exists (cs : Commands) (name : Str) : Bool :=
  decide (name ∈ cs.names ∨ name ∈ cs.aliasPairs.map Prod.fst)

/-- Modelled from the spec: fetch of section 4.1 - fails with NotFound when
the name is neither a canonical name nor an alias. -/
def Commands.fetch_command (cs : Commands) (name : Str) : Option Command :=
  cs.commands.find? (fun c => decide (c.name = name ∨ name ∈ c.aliases))

/-- Modelled from the spec: the cooldown record lookup - the absolute
expiry timestamp for (command, user), 0 when no record exists
(section 4.1: an absent record means no cooldown active). -/
def Commands.fetch_cooldown (cs : Commands) (name uid : Str) : Nat :=
  ((cs.cooldowns.lookup (name, uid)).getD 0)

/-- Modelled from the spec: setCooldown of section 4.1 - records
expiry = now + seconds, overwriting any previous record for the key. -/
def Commands.set_cooldown (cs : Commands) (name : Str) (seconds : Nat) (uid : Str) (now : Nat) :
    Commands :=
  Commands.mk cs.commands
    (((name, uid), now + seconds) ::
      cs.cooldowns.filter (fun e => decide (e.1 ≠ (name, uid))))

/-- Modelled from the spec: `__help__` - a plain listing of name and
description for every command with a non-null description (sections 4.1
and 6); commands without a description are omitted. -/
def Commands.helpText (cs : Commands) : Str :=
  (cs.commands.filter (fun c => c.description.isSome)).flatMap
    (fun c => c.name ++ str " - " ++ c.description.getD [] ++ [Char.ofNat 10])

/-- An observable effect of dispatch. -/
inductive Action
  | reply (content : Str)
  | invoke (id : Nat) (args : List Param)
  | invokeRaw (id : Nat)
deriving DecidableEq

/-- An entry of the diskcache store: value plus absolute expiry time. -/
structure CacheEntry where
  value : Str
  expireAt : Nat
deriving DecidableEq

/-- The reply-wait cache (a diskcache.Cache directory shared between the
EventHandler and every Context). -/
abbrev Cache := List (Str × CacheEntry)

/-- diskcache Cache.get: the stored value when the entry exists and has
not expired, else None. -/
def Cache.get (c : Cache) (now : Nat) (key : Str) : Option Str :=
  match c.lookup key with
  | Option.some e => if now < e.expireAt then Option.some e.value else Option.none
  | Option.none => Option.none

/-- diskcache Cache.clear removes EVERY item from the cache; its only
parameter is a retry flag.  Both call sites in the source pass the
composite key string positionally, where it is consumed as that flag, so
each clear call empties the whole store rather than one key. -/
def Cache.clear (_c : Cache) : Cache := []

/-- diskcache Cache.add: store key/value with the given time-to-live, but
only when no unexpired entry for the key exists. -/
def Cache.add (c : Cache) (now : Nat) (key value : Str) (ttl : Nat) : Cache :=
  if (c.get now key).isSome then c
  else (key, CacheEntry.mk value (now + ttl)) ::
    c.filter (fun e => decide (e.1 ≠ key))

/-- The composite key f-string `chatId_userId`. -/
def cacheKey (chatId uid : Str) : Str := chatId ++ str "_" ++ uid

/-- EventHandler._add_cache: when an unexpired entry exists for the key the
cache is cleared first (which, per Cache.clear above, wipes the whole
store), then the content is added with a 90 second expiry. -/
def add_cache (w : Cache) (now : Nat) (chatId uid content : Str) : Cache :=
  let key := cacheKey chatId uid
  let w := if (w.get now key).isSome then w.clear else w
  w.add now key content 90

/-- Classification of one run of the wait_for_message polling loop. -/
inductive WaitOutcome
  | matched
  | mismatched
  | timedOut
deriving DecidableEq

/-- The body of the wait_for_message while loop, over the sequence of
values the repeated cache.get calls return: a None keeps polling, the
first present value decides match or mismatch, exhaustion of the poll
sequence is the timeout. -/
def waitScan (expected : Str) : List (Option Str) → WaitOutcome
  | [] => WaitOutcome.timedOut
  | Option.none :: rest => waitScan expected rest
  | Option.some v :: _ =>
      if v = expected then WaitOutcome.matched else WaitOutcome.mismatched

/-- Context.wait_for_message.  `polls` is the sequence of values the cache
lookups observe during the loop (the cache is mutated concurrently by
_add_cache); `exitCache` is the cache contents at the moment the exit path
runs its clear call.  The intents guard runs before anything touches the
cache; building the composite key dereferences message.author, so a
missing author raises AttributeError. -/
def wait_for_message (c : Context) (expected : Str) (polls : List (Option Str))
    (exitCache : Cache) : Except PyError (Option Message) × Cache :=
  if c.intents = false then (Except.error PyError.intentsNotEnabled, exitCache)
  else
    match c.message.author with
    | Option.none => (Except.error PyError.attributeError, exitCache)
    | Option.some _ =>
      match waitScan expected polls with
      | WaitOutcome.matched => (Except.ok (Option.some c.message), exitCache.clear)
      | WaitOutcome.mismatched => (Except.ok Option.none, exitCache.clear)
      | WaitOutcome.timedOut => (Except.ok Option.none, exitCache.clear)

/-- The on-cooldown reply text of _check_cooldown. -/
def cooldownMessage (expiry now : Nat) : Str :=
  str "You are on cooldown for " ++ str (toString (expiry - now)) ++ str " seconds."

/-- EventHandler._check_cooldown: status 403 with the templated reply when
the command has a positive cooldown and the record for (command, user) has
not expired yet; otherwise refresh the record (for positive cooldowns) and
return 200.  Reading data.author.userId is unguarded, so a missing author
raises AttributeError. -/
def check_cooldown (cs : Commands) (name : Str) (author : Option MessageAuthor) (now : Nat) :
    Except PyError (Nat × Commands × List Action) :=
  match cs.fetch_command name with
  | Option.none => Except.error PyError.commandNotFound
  | Option.some cmd =>
    if cmd.cooldown > 0 then
      match author with
      | Option.none => Except.error PyError.attributeError
      | Option.some a =>
        match a.userId with
        | Option.none => Except.error PyError.attributeError
        | Option.some uid =>
          if cs.fetch_cooldown name uid > now then
            Except.ok (403, cs,
              [Action.reply (cooldownMessage (cs.fetch_cooldown name uid) now)])
          else
            Except.ok (200, cs.set_cooldown name cmd.cooldown uid now, [])
    else Except.ok (200, cs, [])

/-- The whole mutable state the dispatcher touches. -/
structure BotState where
  events : List (Str × Handler)
  commands : Commands
  command_prefix : Str
  intents : Bool
  wait_for : Cache
deriving DecidableEq

/-- The result of one dispatch call: the mutated command table and cache,
the observable actions in order, and the exception escaping the call. -/
structure DResult where
  commands : Commands
  cache : Cache
  actions : List Action
  err : Option PyError
deriving DecidableEq

/-- The candidate command token: `content[len(prefix):].split(" ")[0]`. -/
def firstToken (s : Str) : Str := s.takeWhile (fun c => decide (c ≠ ' '))

/-- EventHandler._handle_all_events: look the handler up (a missing entry
raises KeyError), resolve its parameters - the source passes the Message
object as the override, which fails the isinstance test, so the raw
content is used - and call it. -/
def handle_all_events (events : List (Str × Handler)) (event : Str) (c : Context) :
    List Action × Option PyError :=
  match events.lookup event with
  | Option.none => ([], Option.some PyError.keyError)
  | Option.some h =>
    match set_parameters c h.params Option.none with
    | Except.error e => ([], Option.some e)
    | Except.ok args => ([Action.invoke h.id args], h.raises)

/-- The two generic text events of the no-match forwarding loop.  The
source iterates the set literal {"text_message", "_console_text_message"};
CPython leaves the iteration order of that set unspecified, and none of
the results proved below depend on it, so it is fixed here. -/
def textMessageEvents : List Str :=
  [str "text_message", str "_console_text_message"]

/-- The `for event in {...}: self._handle_all_events(...)` loop of the
no-match branch: each iteration may raise (KeyError for an unregistered
counterpart), aborting the rest of the loop. -/
def dispatchTextEvents (events : List (Str × Handler)) (order : List Str) (c : Context) :
    List Action × Option PyError :=
  match order with
  | [] => ([], Option.none)
  | e :: rest =>
    match handle_all_events events e c with
    | (acts, Option.some er) => (acts, Option.some er)
    | (acts, Option.none) =>
      match dispatchTextEvents events rest c with
      | (acts2, err2) => (acts ++ acts2, err2)

/-- EventHandler._handle_command, the command router. -/
def handle_command (st : BotState) (data : Message) (now : Nat) : DResult :=
  match data.content with
  | Option.none => DResult.mk st.commands st.wait_for [] (Option.some PyError.attributeError)
  | Option.some content =>
    let c : Context := Context.mk data st.intents
    let tok := firstToken (content.drop st.command_prefix.length)
    if command_exists st.commands tok = false ∨
        content.take st.command_prefix.length ≠ st.command_prefix then
      if tok = str "help" ∧ content = st.command_prefix ++ str "help" then
        DResult.mk st.commands st.wait_for [Action.reply st.commands.helpText] Option.none
      else if textMessageEvents.any (fun e => (st.events.lookup e).isSome) then
        match dispatchTextEvents st.events textMessageEvents c with
        | (acts, err) => DResult.mk st.commands st.wait_for acts err
      else DResult.mk st.commands st.wait_for [] Option.none
    else if content.take st.command_prefix.length ≠ st.command_prefix then
      DResult.mk st.commands st.wait_for [] Option.none
    else
      let message := content.drop (st.command_prefix.length + tok.length + 1)
      let name := st.commands.resolveAlias tok
      match check_cooldown st.commands name data.author now with
      | Except.error e => DResult.mk st.commands st.wait_for [] (Option.some e)
      | Except.ok (code, cs2, acts) =>
        if code ≠ 403 then
          match cs2.fetch_command name with
          | Option.none =>
            DResult.mk cs2 st.wait_for acts (Option.some PyError.commandNotFound)
          | Option.some cmd =>
            match set_parameters c cmd.handler.params (Option.some message) with
            | Except.error e => DResult.mk cs2 st.wait_for acts (Option.some e)
            | Except.ok args =>
              DResult.mk cs2 st.wait_for (acts ++ [Action.invoke cmd.handler.id args])
                cmd.handler.raises
        else DResult.mk cs2 st.wait_for acts Option.none

/-- The events whose handler receives the raw payload without a Context. -/
def presenceEvents : List Str :=
  [str "user_online", str "member_set_you_host", str "member_set_you_cohost",
   str "member_remove_your_cohost"]

/-- The body of EventHandler._handle_event before the suppress(KeyError)
wrapper.  For text_message the message is cached (when intents are on and
no command matches) and the command router runs; control then FALLS
THROUGH - there is no return or elif - to the generic `if event in
self._events` dispatch.  An exception from the first part skips the
second.  The `all([self.intents, not self.command_exists(...)])` list
evaluates the content slice even when intents is off, so a content-less
message raises there; author userId is only read inside _add_cache. -/
def handle_event_body (st : BotState) (event : Str) (data : Message) (now : Nat) : DResult :=
  let r1 : DResult :=
    if event = str "text_message" then
      match data.content with
      | Option.none =>
        DResult.mk st.commands st.wait_for [] (Option.some PyError.attributeError)
      | Option.some content =>
        let tok := firstToken (content.drop st.command_prefix.length)
        if st.intents && !(command_exists st.commands tok) then
          match data.author with
          | Option.none =>
            DResult.mk st.commands st.wait_for [] (Option.some PyError.attributeError)
          | Option.some a =>
            match a.userId with
            | Option.none =>
              DResult.mk st.commands st.wait_for [] (Option.some PyError.attributeError)
            | Option.some uid =>
              handle_command
                (BotState.mk st.events st.commands st.command_prefix st.intents
                  (add_cache st.wait_for now data.chatId uid content))
                data now
        else handle_command st data now
    else DResult.mk st.commands st.wait_for [] Option.none
  match r1.err with
  | Option.some _ => r1
  | Option.none =>
    match st.events.lookup event with
    | Option.none => r1
    | Option.some h =>
      if event ∈ presenceEvents then
        DResult.mk r1.commands r1.cache (r1.actions ++ [Action.invokeRaw h.id]) h.raises
      else
        match handle_all_events st.events event (Context.mk data st.intents) with
        | (acts, err) => DResult.mk r1.commands r1.cache (r1.actions ++ acts) err

/-- EventHandler._handle_event: the body runs under suppress(KeyError),
so a KeyError escaping anywhere in it is swallowed silently and every
other exception propagates to the caller. -/
def handle_event (st : BotState) (event : Str) (data : Message) (now : Nat) : DResult :=
  let r := handle_event_body st event data now
  match r.err with
  | Option.some PyError.keyError => DResult.mk r.commands r.cache r.actions Option.none
  | _ => r

/-! Concrete inputs used by the closed theorems and witnesses below. -/

/-- A fully populated author. -/
def alice : MessageAuthor :=
  MessageAuthor.mk (Option.some (str "alice")) (Option.some (str "u1"))

/-- The "ping" command handler declaring ctx and message. -/
def pingHandler : Handler := Handler.mk 1 [str "ctx", str "message"] Option.none

/-- The registered "ping" command. -/
def pingCmd : Command :=
  Command.mk (str "ping") (Option.some (str "Ping")) Option.none [] 0 pingHandler

/-- A generic text-message handler. -/
def genericHandler : Handler := Handler.mk 2 [str "ctx"] Option.none

/-- State with the "ping" command and a generic text-message handler. -/
def stPing : BotState :=
  BotState.mk [(str "text_message", genericHandler)] (Commands.mk [pingCmd] [])
    (str "!") false []

/-- The inbound message "!ping". -/
def msgPing : Message :=
  Message.mk (Option.some (str "!ping")) (Option.some alice) (str "c1")

/-- The inbound message "!ping extra text". -/
def msgPingExtra : Message :=
  Message.mk (Option.some (str "!ping extra text")) (Option.some alice) (str "c1")

/-- A message carrying no author object. -/
def msgNoAuthor : Message := Message.mk (Option.some (str "hi")) Option.none (str "c1")

/-- A plain non-command message. -/
def msgHello : Message :=
  Message.mk (Option.some (str "hello")) (Option.some alice) (str "c1")

/-- An error-event handler. -/
def errHandler : Handler := Handler.mk 99 [str "ctx"] Option.none

/-- A member_join handler whose body raises KeyError. -/
def raisingJoinHandler : Handler := Handler.mk 7 [str "ctx"] (Option.some PyError.keyError)

/-- State with an error handler and a raising member_join handler. -/
def stErr : BotState :=
  BotState.mk [(str "error", errHandler), (str "member_join", raisingJoinHandler)]
    (Commands.mk [] []) (str "!") false []

/-- A cache holding unexpired entries for two different (chat, user) keys. -/
def twoKeyCache : Cache :=
  [(str "c1_u1", CacheEntry.mk (str "hi") 100),
   (str "c2_u2", CacheEntry.mk (str "yo") 100)]

/-- The command "slow" with a 5 second cooldown. -/
def slowCmd : Command :=
  Command.mk (str "slow") (Option.some (str "s")) Option.none []
    5 (Handler.mk 8 [str "ctx"] Option.none)

/-- State with the "slow" command and a cooldown record for alice expiring at 20. -/
def stSlow : BotState :=
  BotState.mk [] (Commands.mk [slowCmd] [((str "slow", str "u1"), 20)]) (str "!") false []

/-- The inbound message "!slow". -/
def msgSlow : Message :=
  Message.mk (Option.some (str "!slow")) (Option.some alice) (str "c1")

/-- The inbound message "!help". -/
def msgBangHelp : Message :=
  Message.mk (Option.some (str "!help")) (Option.some alice) (str "c1")

/-- A command literally named "help". -/
def helpCmd : Command :=
  Command.mk (str "help") Option.none Option.none [] 0
    (Handler.mk 5 [str "ctx"] Option.none)

/-- State with a registered command literally named "help". -/
def stHelp : BotState :=
  BotState.mk [] (Commands.mk [pingCmd, helpCmd] []) (str "!") false []

/-! Helper lemmas. -/

theorem firstToken_no_space (t : Str) (r : Str) (h : ∀ c ∈ t, c ≠ ' ') :
    firstToken (t ++ ' ' :: r) = t := by
  induction t with
  | nil => simp [firstToken]
  | cons c cs ih =>
    have hc : c ≠ ' ' := h c (List.mem_cons_self c cs)
    have ih2 := ih (fun x hx => h x (List.mem_cons_of_mem c hx))
    simp only [firstToken] at ih2 ⊢
    rw [List.cons_append, List.takeWhile_cons, if_pos (by simp [hc]), ih2]

theorem drop_prefix_token (p t r : Str) :
    (p ++ (t ++ ' ' :: r)).drop (p.length + t.length + 1) = r := by
  have h1 : p ++ (t ++ ' ' :: r) = (p ++ t ++ [' ']) ++ r := by simp
  have h2 : (p ++ t ++ [' ']).length = p.length + t.length + 1 := by
    simp [List.length_append]
    omega
  rw [h1, List.drop_left' h2]

theorem fetch_cooldown_set_cooldown (cs : Commands) (name uid : Str) (s now : Nat) :
    (cs.set_cooldown name s uid now).fetch_cooldown name uid = now + s := by
  simp [Commands.set_cooldown, Commands.fetch_cooldown, List.lookup]

theorem fetch_command_set_cooldown (cs : Commands) (n name uid : Str) (s now : Nat) :
    (cs.set_cooldown name s uid now).fetch_command n = cs.fetch_command n := rfl

theorem set_parameters_ok (c : Context) (params : List Str) (om : Option Str)
    (a : MessageAuthor) (ha : c.message.author = Option.some a) :
    set_parameters c params om = Except.ok (params.map (resolveOne c om a)) := by
  simp only [set_parameters, Context.author, ha, Option.some_bind, resolveOne]
  rfl

theorem firstToken_help : firstToken (str "help") = str "help" := by decide

theorem waitScan_classify (e : Str) (polls : List (Option Str)) :
    waitScan e polls =
      match polls.findSome? id with
      | Option.some v =>
          if v = e then WaitOutcome.matched else WaitOutcome.mismatched
      | Option.none => WaitOutcome.timedOut := by
  induction polls with
  | nil => rfl
  | cons h t ih => cases h <;> simp [waitScan, List.findSome?_cons, ih]

/-! The claims. -/

/-- C8 (confirmed): a wait_for_message call with the intents feature flag
disabled fails immediately with IntentsNotEnabled, before any cache read,
wait, or clear: the cache is returned exactly as it was. -/
theorem C8_intents_guard (c : Context) (expected : Str) (polls : List (Option Str))
    (exitCache : Cache) (hi : c.intents = false) :
    wait_for_message c expected polls exitCache =
      (Except.error PyError.intentsNotEnabled, exitCache) := by
  simp [wait_for_message, hi]

/-- Witness for C8 at a concrete input. -/
theorem C8_intents_guard_witness :
    (Context.mk msgHello false).intents = false ∧
    wait_for_message (Context.mk msgHello false) (str "$verify") [] twoKeyCache =
      (Except.error PyError.intentsNotEnabled, twoKeyCache) :=
  ⟨rfl, C8_intents_guard (Context.mk msgHello false) (str "$verify") [] twoKeyCache rfl⟩

/-- C10 (confirmed): parameter resolution builds the member view of the
author unconditionally, so for every handler signature - zero parameters
included - resolving arguments for an event whose message carries no
author raises AttributeError instead of returning a list of nulls. -/
theorem C10_authorless_raises (c : Context) (params : List Str) (om : Option Str)
    (ha : c.message.author = Option.none) :
    set_parameters c params om = Except.error PyError.attributeError := by
  simp [set_parameters, Context.author, ha]

/-- Witness for C10: a zero-parameter handler and an authorless message. -/
theorem C10_authorless_raises_witness :
    (Context.mk msgNoAuthor false).message.author = Option.none ∧
    set_parameters (Context.mk msgNoAuthor false) [] Option.none =
      Except.error PyError.attributeError :=
  ⟨rfl, C10_authorless_raises (Context.mk msgNoAuthor false) [] Option.none rfl⟩

/-- C1 (code bug): dispatching the text_message event "!ping" with command
"ping" registered and a generic text-message handler registered invokes the
command handler AND THEN the generic handler: _handle_event has no return
or elif after the command-router call, so control falls through into the
direct event-dispatch path.  The claim (spec section 4.4: for text_message
control passes to the Command Router INSTEAD of direct dispatch, and the
router stops after handling) is violated; the internal no-match forwarding
of _handle_command, which would double every generic delivery, shows the
fall-through is a slip rather than a design. -/
theorem C1_generic_handler_runs_after_command_match :
    handle_event stPing (str "text_message") msgPing 0 =
      DResult.mk (Commands.mk [pingCmd] []) []
        [Action.invoke 1 [Param.ctx, Param.str []], Action.invoke 2 [Param.ctx]]
        Option.none := by
  decide

/-- C5 (code bug): clearing is NOT key-local.  Recording a value for the
key of chat c1 and user u1, while an unexpired entry for that key exists,
erases the unexpired, unconsumed entry of the unrelated key of chat c2 and
user u2 as well, because diskcache Cache.clear removes every item (the key
string passed at the call site is consumed as the retry flag).  The same
clear call runs on every exit path of wait_for_message. -/
theorem C5_record_wipes_unrelated_keys :
    Cache.get twoKeyCache 10 (str "c2_u2") = Option.some (str "yo") ∧
    Cache.get (add_cache twoKeyCache 10 (str "c1") (str "u1") (str "new")) 10
      (str "c2_u2") = Option.none ∧
    (wait_for_message (Context.mk msgHello true) (str "x") [] twoKeyCache).2.get 10
      (str "c2_u2") = Option.none := by
  decide

/-- C4 counterexample: with an error handler registered under "error"
(id 99) and a member_join handler whose body raises KeyError, dispatch
swallows the exception (err is none) while the recorded actions show only
the member_join invocation - the error handler is never called, refuting
the claim that the exception is forwarded to it before being swallowed. -/
theorem C4_keyerror_swallowed_without_forwarding :
    handle_event stErr (str "member_join") msgHello 0 =
      DResult.mk (Commands.mk [] []) [] [Action.invoke 7 [Param.ctx]] Option.none := by
  decide

/-- C4 as amended: when a dispatched handler raises, the dispatcher never
invokes the handler registered under "error"; a KeyError is swallowed
silently (dispatch returns without error), while any other exception
propagates to the caller unforwarded. -/
theorem C4_amended_no_error_forwarding (st : BotState) (ev : Str) (data : Message)
    (now : Nat) (h errH : Handler) (e : PyError) (a : MessageAuthor)
    (he : st.events.lookup (str "error") = Option.some errH)
    (hev : st.events.lookup ev = Option.some h)
    (hraise : h.raises = Option.some e)
    (hnt : ev ≠ str "text_message")
    (hnp : ev ∉ presenceEvents)
    (ha : data.author = Option.some a) :
    ∃ args, (handle_event st ev data now).actions = [Action.invoke h.id args] ∧
      (handle_event st ev data now).err =
        (if e = PyError.keyError then Option.none else Option.some e) ∧
      (errH.id ≠ h.id →
        ∀ as, Action.invoke errH.id as ∉ (handle_event st ev data now).actions) := by
  refine ⟨h.params.map (fun p =>
    if p = str "ctx" then Param.ctx
    else if p = str "member" then Param.member a
    else if p = str "message" then optParam data.content
    else if p = str "username" then optParam a.username
    else if p = str "userId" then optParam a.userId
    else Param.none), ?_⟩
  have hbody : handle_event_body st ev data now =
      DResult.mk st.commands st.wait_for
        [Action.invoke h.id (h.params.map (fun p =>
          if p = str "ctx" then Param.ctx
          else if p = str "member" then Param.member a
          else if p = str "message" then optParam data.content
          else if p = str "username" then optParam a.username
          else if p = str "userId" then optParam a.userId
          else Param.none))] (Option.some e) := by
    simp only [handle_event_body, if_neg hnt, hev, handle_all_events, set_parameters,
      Context.author, ha, hraise]
    simp [hnp, Option.orElse]
  cases e <;>
    simp_all [handle_event, hbody]

/-- Witness for the amended C4 at a concrete input (the handler raises
KeyError; dispatch returns no error and only the one invocation). -/
theorem C4_amended_no_error_forwarding_witness :
    stErr.events.lookup (str "error") = Option.some errHandler ∧
    stErr.events.lookup (str "member_join") = Option.some raisingJoinHandler ∧
    raisingJoinHandler.raises = Option.some PyError.keyError ∧
    msgHello.author = Option.some alice ∧
    (∃ args,
      (handle_event stErr (str "member_join") msgHello 0).actions =
        [Action.invoke raisingJoinHandler.id args] ∧
      (handle_event stErr (str "member_join") msgHello 0).err =
        (if PyError.keyError = PyError.keyError then Option.none
          else Option.some PyError.keyError) ∧
      (errHandler.id ≠ raisingJoinHandler.id →
        ∀ as, Action.invoke errHandler.id as ∉
          (handle_event stErr (str "member_join") msgHello 0).actions)) :=
  ⟨by decide, by decide, by decide, by decide,
    C4_amended_no_error_forwarding stErr (str "member_join") msgHello 0
      raisingJoinHandler errHandler PyError.keyError alice (by decide) (by decide)
      (by decide) (by decide) (by decide) (by decide)⟩

/-- C7 counterexample: the resolver does not return an argument list for
every handler and every context - for a context whose message carries no
author it raises AttributeError even when the handler declares zero
parameters, refuting the universally quantified claim. -/
theorem C7_no_return_for_authorless_context :
    set_parameters (Context.mk msgNoAuthor false) [] Option.none =
      Except.error PyError.attributeError := by
  decide

/-- C7 as amended: for every handler and every context WHOSE EVENT CARRIES
AN AUTHOR, the resolver returns one argument per declared parameter in
declaration order, supplied by name from the fixed vocabulary - context,
the member view of the author, the effective message text (override if
supplied, else the raw content, else null), the author username (null if
absent), the author identifier (null if absent) - and a name outside the
vocabulary resolves to null, so any subset in any order is accepted. -/
theorem C7_amended_parameter_resolution (c : Context) (params : List Str)
    (om : Option Str) (a : MessageAuthor) (ha : c.message.author = Option.some a) :
    ∃ args, set_parameters c params om = Except.ok args ∧
      args.length = params.length ∧
      ∀ i (h1 : i < params.length) (h2 : i < args.length),
        (params.get ⟨i, h1⟩ = str "ctx" → args.get ⟨i, h2⟩ = Param.ctx) ∧
        (params.get ⟨i, h1⟩ = str "member" → args.get ⟨i, h2⟩ = Param.member a) ∧
        (params.get ⟨i, h1⟩ = str "message" →
          args.get ⟨i, h2⟩ = optParam (om.orElse (fun _ => c.message.content))) ∧
        (params.get ⟨i, h1⟩ = str "username" →
          args.get ⟨i, h2⟩ = optParam a.username) ∧
        (params.get ⟨i, h1⟩ = str "userId" → args.get ⟨i, h2⟩ = optParam a.userId) ∧
        (params.get ⟨i, h1⟩ ∉ [str "ctx", str "member", str "message",
          str "username", str "userId"] → args.get ⟨i, h2⟩ = Param.none) := by
  refine ⟨params.map (resolveOne c om a), ?_, by simp [resolveOne], ?_⟩
  · rw [set_parameters_ok c params om a ha]
  · intro i h1 h2
    have hget : (params.map (resolveOne c om a)).get ⟨i, h2⟩ =
        resolveOne c om a (params.get ⟨i, h1⟩) := by
      simp [List.get_eq_getElem, List.getElem_map]
    rw [hget]
    refine ⟨?_, ?_, ?_, ?_, ?_, ?_⟩
    · intro hp
      rw [hp, resolveOne, if_pos rfl]
    · intro hp
      rw [hp, resolveOne, if_neg (by decide), if_pos rfl]
    · intro hp
      rw [hp, resolveOne, if_neg (by decide), if_neg (by decide), if_pos rfl]
    · intro hp
      rw [hp, resolveOne, if_neg (by decide), if_neg (by decide), if_neg (by decide),
        if_pos rfl]
    · intro hp
      rw [hp, resolveOne, if_neg (by decide), if_neg (by decide), if_neg (by decide),
        if_neg (by decide), if_pos rfl]
    · intro hp
      simp only [List.mem_cons, List.not_mem_nil, or_false, not_or] at hp
      rw [resolveOne, if_neg hp.1, if_neg hp.2.1, if_neg hp.2.2.1, if_neg hp.2.2.2.1,
        if_neg hp.2.2.2.2]

/-- Witness for the amended C7: a handler declaring every vocabulary name
plus an unknown one, with an author-bearing context. -/
theorem C7_amended_parameter_resolution_witness :
    (Context.mk msgHello false).message.author = Option.some alice ∧
    (∃ args, set_parameters (Context.mk msgHello false)
        [str "ctx", str "member", str "message", str "username", str "userId",
          str "banana"] Option.none = Except.ok args ∧
      args.length = [str "ctx", str "member", str "message", str "username",
        str "userId", str "banana"].length ∧
      ∀ i (h1 : i < [str "ctx", str "member", str "message", str "username",
          str "userId", str "banana"].length) (h2 : i < args.length),
        ([str "ctx", str "member", str "message", str "username", str "userId",
            str "banana"].get ⟨i, h1⟩ = str "ctx" → args.get ⟨i, h2⟩ = Param.ctx) ∧
        ([str "ctx", str "member", str "message", str "username", str "userId",
            str "banana"].get ⟨i, h1⟩ = str "member" →
          args.get ⟨i, h2⟩ = Param.member alice) ∧
        ([str "ctx", str "member", str "message", str "username", str "userId",
            str "banana"].get ⟨i, h1⟩ = str "message" →
          args.get ⟨i, h2⟩ = optParam (Option.none.orElse
            (fun _ => (Context.mk msgHello false).message.content))) ∧
        ([str "ctx", str "member", str "message", str "username", str "userId",
            str "banana"].get ⟨i, h1⟩ = str "username" →
          args.get ⟨i, h2⟩ = optParam alice.username) ∧
        ([str "ctx", str "member", str "message", str "username", str "userId",
            str "banana"].get ⟨i, h1⟩ = str "userId" →
          args.get ⟨i, h2⟩ = optParam alice.userId) ∧
        ([str "ctx", str "member", str "message", str "username", str "userId",
            str "banana"].get ⟨i, h1⟩ ∉ [str "ctx", str "member", str "message",
            str "username", str "userId"] → args.get ⟨i, h2⟩ = Param.none)) :=
  ⟨rfl, C7_amended_parameter_resolution (Context.mk msgHello false)
    [str "ctx", str "member", str "message", str "username", str "userId",
      str "banana"] Option.none alice rfl⟩

/-- C2 (confirmed): for a command with positive cooldown, when the
invoking user record has not expired the router replies with the templated
on-cooldown message, invokes no handler, and leaves the cooldown record
unchanged; otherwise the record is set to now plus the cooldown and the
command handler is invoked - the record is overwritten only on the
non-blocked path. -/
theorem C2_cooldown_gate (st : BotState) (data : Message) (now : Nat)
    (content name : Str) (a : MessageAuthor) (uid : Str) (cmd : Command)
    (hc : data.content = Option.some content)
    (hex : command_exists st.commands
      (firstToken (content.drop st.command_prefix.length)) = true)
    (hpre : content.take st.command_prefix.length = st.command_prefix)
    (hname : st.commands.resolveAlias
      (firstToken (content.drop st.command_prefix.length)) = name)
    (hcmd : st.commands.fetch_command name = Option.some cmd)
    (hcd : 0 < cmd.cooldown)
    (ha : data.author = Option.some a)
    (hu : a.userId = Option.some uid) :
    (now < st.commands.fetch_cooldown name uid →
      (handle_command st data now).actions =
        [Action.reply (cooldownMessage (st.commands.fetch_cooldown name uid) now)] ∧
      (handle_command st data now).commands = st.commands ∧
      ∀ i args, Action.invoke i args ∉ (handle_command st data now).actions) ∧
    (st.commands.fetch_cooldown name uid ≤ now →
      (handle_command st data now).commands.fetch_cooldown name uid =
        now + cmd.cooldown ∧
      ∃ args, (handle_command st data now).actions =
        [Action.invoke cmd.handler.id args]) := by
  have hcc : check_cooldown st.commands name data.author now =
      (if st.commands.fetch_cooldown name uid > now then
        Except.ok (403, st.commands,
          [Action.reply (cooldownMessage (st.commands.fetch_cooldown name uid) now)])
      else Except.ok (200, st.commands.set_cooldown name cmd.cooldown uid now, [])) := by
    simp only [check_cooldown, hcmd, if_pos hcd, ha, hu]
  by_cases hblk : now < st.commands.fetch_cooldown name uid
  · have hr : handle_command st data now =
        DResult.mk st.commands st.wait_for
          [Action.reply (cooldownMessage (st.commands.fetch_cooldown name uid) now)]
          Option.none := by
      simp only [handle_command, hc]
      rw [if_neg (by simp [hex, hpre]), if_neg (by simp [hpre]), hname, hcc,
        if_pos hblk]
      simp
    refine ⟨fun _ => ⟨by rw [hr], by rw [hr], ?_⟩, fun hle => absurd hblk (by omega)⟩
    intro i args hmem
    rw [hr] at hmem
    simp at hmem
  · have hr : handle_command st data now =
        DResult.mk (st.commands.set_cooldown name cmd.cooldown uid now) st.wait_for
          [Action.invoke cmd.handler.id
            (cmd.handler.params.map (resolveOne (Context.mk data st.intents)
              (Option.some (content.drop (st.command_prefix.length +
                (firstToken (content.drop st.command_prefix.length)).length + 1))) a))]
          cmd.handler.raises := by
      simp only [handle_command, hc]
      rw [if_neg (by simp [hex, hpre]), if_neg (by simp [hpre]), hname, hcc,
        if_neg hblk]
      simp only [fetch_command_set_cooldown, hcmd,
        set_parameters_ok (Context.mk data st.intents) cmd.handler.params _ a ha]
      simp
    refine ⟨fun hlt => absurd hlt hblk, fun _ => ⟨?_, ?_⟩⟩
    · rw [hr]
      exact fetch_cooldown_set_cooldown st.commands name uid cmd.cooldown now
    · exact ⟨_, by rw [hr]⟩

/-- Witness for C2 at a concrete input: the command "slow" with cooldown 5
and a record expiring at 20, invoked at time 10 (blocked) - the theorem is
applied and both branch implications are available. -/
theorem C2_cooldown_gate_witness :
    msgSlow.content = Option.some (str "!slow") ∧
    alice.userId = Option.some (str "u1") ∧
    ((10 < stSlow.commands.fetch_cooldown (str "slow") (str "u1") →
      (handle_command stSlow msgSlow 10).actions =
        [Action.reply (cooldownMessage
          (stSlow.commands.fetch_cooldown (str "slow") (str "u1")) 10)] ∧
      (handle_command stSlow msgSlow 10).commands = stSlow.commands ∧
      ∀ i args, Action.invoke i args ∉ (handle_command stSlow msgSlow 10).actions) ∧
    (stSlow.commands.fetch_cooldown (str "slow") (str "u1") ≤ 10 →
      (handle_command stSlow msgSlow 10).commands.fetch_cooldown (str "slow")
        (str "u1") = 10 + slowCmd.cooldown ∧
      ∃ args, (handle_command stSlow msgSlow 10).actions =
        [Action.invoke slowCmd.handler.id args])) :=
  ⟨rfl, rfl,
    C2_cooldown_gate stSlow msgSlow 10 (str "!slow") (str "slow") alice (str "u1")
      slowCmd (by decide) (by decide) (by decide) (by decide) (by decide) (by decide)
      (by decide) (by decide)⟩

/-- C6 (confirmed): when a message starts with the prefix and its first
whitespace-delimited token resolves (directly or via alias) to a
registered command that is not blocked by cooldown, the handler is invoked
and its declared message parameter receives exactly the remainder of the
message after the prefix, the token and the separating space. -/
theorem C6_message_remainder (st : BotState) (data : Message) (now : Nat)
    (tok rest name : Str) (a : MessageAuthor) (uid : Str) (cmd : Command)
    (hc : data.content = Option.some (st.command_prefix ++ (tok ++ ' ' :: rest)))
    (htok : ∀ ch ∈ tok, ch ≠ ' ')
    (hex : command_exists st.commands tok = true)
    (hname : st.commands.resolveAlias tok = name)
    (hcmd : st.commands.fetch_command name = Option.some cmd)
    (ha : data.author = Option.some a)
    (hu : a.userId = Option.some uid)
    (hnb : st.commands.fetch_cooldown name uid ≤ now) :
    ∃ args, (handle_command st data now).actions =
      [Action.invoke cmd.handler.id args] ∧
      args.length = cmd.handler.params.length ∧
      ∀ i (h1 : i < cmd.handler.params.length) (h2 : i < args.length),
        cmd.handler.params.get ⟨i, h1⟩ = str "message" →
        args.get ⟨i, h2⟩ = Param.str rest := by
  have hdrop : (st.command_prefix ++ (tok ++ ' ' :: rest)).drop
      st.command_prefix.length = tok ++ ' ' :: rest :=
    List.drop_left st.command_prefix (tok ++ ' ' :: rest)
  have hft : firstToken ((st.command_prefix ++ (tok ++ ' ' :: rest)).drop
      st.command_prefix.length) = tok := by
    rw [hdrop]
    exact firstToken_no_space tok rest htok
  have htake : (st.command_prefix ++ (tok ++ ' ' :: rest)).take
      st.command_prefix.length = st.command_prefix :=
    List.take_left st.command_prefix (tok ++ ' ' :: rest)
  have hrem : (st.command_prefix ++ (tok ++ ' ' :: rest)).drop
      (st.command_prefix.length + tok.length + 1) = rest :=
    drop_prefix_token st.command_prefix tok rest
  have hcc : check_cooldown st.commands name data.author now =
      Except.ok (200,
        (if 0 < cmd.cooldown then st.commands.set_cooldown name cmd.cooldown uid now
          else st.commands), []) := by
    by_cases hcd : 0 < cmd.cooldown
    · simp only [check_cooldown, hcmd, if_pos hcd, ha, hu, if_pos hcd]
      rw [if_neg (by omega)]
    · simp only [check_cooldown, hcmd, if_neg hcd]
  have hr : handle_command st data now =
      DResult.mk (if 0 < cmd.cooldown then
          st.commands.set_cooldown name cmd.cooldown uid now else st.commands)
        st.wait_for
        [Action.invoke cmd.handler.id
          (cmd.handler.params.map (resolveOne (Context.mk data st.intents)
            (Option.some rest) a))]
        cmd.handler.raises := by
    simp only [handle_command, hc]
    rw [if_neg (by simp [firstToken_no_space tok rest htok, hex, htake]),
      if_neg (by simp [htake]), hft, hrem, hname, hcc]
    have hfetch2 : (if 0 < cmd.cooldown then
        st.commands.set_cooldown name cmd.cooldown uid now
        else st.commands).fetch_command name = Option.some cmd := by
      by_cases hcd : 0 < cmd.cooldown <;> simp [hcd, fetch_command_set_cooldown, hcmd]
    simp only [hfetch2, set_parameters_ok (Context.mk data st.intents)
      cmd.handler.params (Option.some rest) a ha]
    simp
  refine ⟨cmd.handler.params.map (resolveOne (Context.mk data st.intents)
    (Option.some rest) a), by rw [hr], by simp, ?_⟩
  intro i h1 h2 hp
  have hget : (cmd.handler.params.map (resolveOne (Context.mk data st.intents)
      (Option.some rest) a)).get ⟨i, h2⟩ =
      resolveOne (Context.mk data st.intents) (Option.some rest) a
        (cmd.handler.params.get ⟨i, h1⟩) := by
    simp [List.get_eq_getElem, List.getElem_map]
  rw [hget, hp, resolveOne, if_neg (by decide), if_neg (by decide), if_pos rfl]
  rfl

/-- Witness for C6: the spec example - message "!ping extra text", prefix
"!", command "ping" declaring ctx and message - yields message "extra text"
at declaration position 1. -/
theorem C6_message_remainder_witness :
    msgPingExtra.content =
      Option.some (stPing.command_prefix ++ (str "ping" ++ ' ' :: str "extra text")) ∧
    (∃ args, (handle_command stPing msgPingExtra 0).actions =
      [Action.invoke pingCmd.handler.id args] ∧
      args.length = pingCmd.handler.params.length ∧
      ∀ i (h1 : i < pingCmd.handler.params.length) (h2 : i < args.length),
        pingCmd.handler.params.get ⟨i, h1⟩ = str "message" →
        args.get ⟨i, h2⟩ = Param.str (str "extra text")) :=
  ⟨by decide,
    C6_message_remainder stPing msgPingExtra 0 (str "ping") (str "extra text")
      (str "ping") alice (str "u1") pingCmd (by decide) (by decide) (by decide)
      (by decide) (by decide) (by decide) (by decide) (by decide)⟩

/-- C9 (confirmed): on a message that is exactly the prefix followed by
"help", the router replies with the rendered help listing and stops when
no command named or aliased "help" is registered; when a command literally
named "help" is registered, its handler runs instead of the built-in
listing. -/
theorem C9_help_precedence (st : BotState) (data : Message) (now : Nat)
    (hc : data.content = Option.some (st.command_prefix ++ str "help")) :
    (command_exists st.commands (str "help") = false →
      handle_command st data now =
        DResult.mk st.commands st.wait_for [Action.reply st.commands.helpText]
          Option.none) ∧
    (∀ cmd a, st.commands.resolveAlias (str "help") = str "help" →
      st.commands.fetch_command (str "help") = Option.some cmd →
      command_exists st.commands (str "help") = true →
      cmd.cooldown = 0 →
      data.author = Option.some a →
      ∃ args, (handle_command st data now).actions =
        [Action.invoke cmd.handler.id args]) := by
  have hdrop : (st.command_prefix ++ str "help").drop st.command_prefix.length =
      str "help" := List.drop_left st.command_prefix (str "help")
  have hft : firstToken ((st.command_prefix ++ str "help").drop
      st.command_prefix.length) = str "help" := by
    rw [hdrop]
    decide
  have htake : (st.command_prefix ++ str "help").take st.command_prefix.length =
      st.command_prefix := List.take_left st.command_prefix (str "help")
  constructor
  · intro hno
    simp only [handle_command, hc]
    rw [if_pos (Or.inl (by rw [hft, hno]))]
    rw [if_pos ⟨hft, True.intro⟩]
  · intro cmd a hres hcmd hex hcd ha
    have hcc : check_cooldown st.commands (str "help") data.author now =
        Except.ok (200, st.commands, []) := by
      simp only [check_cooldown, hcmd]
      rw [if_neg (by omega)]
    have hr : handle_command st data now =
        DResult.mk st.commands st.wait_for
          [Action.invoke cmd.handler.id
            (cmd.handler.params.map (resolveOne (Context.mk data st.intents)
              (Option.some ((st.command_prefix ++ str "help").drop
                (st.command_prefix.length + (str "help").length + 1))) a))]
          cmd.handler.raises := by
      simp only [handle_command, hc]
      rw [if_neg (by simp [firstToken_help, hex, htake]),
        if_neg (by simp [htake]), hft, hres, hcc]
      simp only [hcmd, set_parameters_ok (Context.mk data st.intents)
        cmd.handler.params _ a ha]
      simp
    exact ⟨_, by rw [hr]⟩

/-- Witness for C9: part one at a state without a "help" command, part two
at a state with a registered "help" command. -/
theorem C9_help_precedence_witness :
    msgBangHelp.content = Option.some (stPing.command_prefix ++ str "help") ∧
    command_exists stPing.commands (str "help") = false ∧
    handle_command stPing msgBangHelp 0 =
      DResult.mk stPing.commands stPing.wait_for
        [Action.reply stPing.commands.helpText] Option.none ∧
    (∃ args, (handle_command stHelp msgBangHelp 0).actions =
      [Action.invoke helpCmd.handler.id args]) :=
  ⟨by decide, by decide,
    (C9_help_precedence stPing msgBangHelp 0 (by decide)).1 (by decide),
    (C9_help_precedence stHelp msgBangHelp 0 (by decide)).2 helpCmd alice (by decide)
      (by decide) (by decide) (by decide) (by decide)⟩

/-- C3 (confirmed): with intents enabled, one wait_for_message call has
exactly three outcomes over the values its polls observe: the first
recorded value equals the expected string - the original triggering
message is returned and the entry for the (chat, user) key is cleared; the
first recorded value differs - null is returned and the entry is cleared;
nothing is recorded before the timeout - null is returned and the entry is
cleared (clearing an absent entry is a no-op). -/
theorem C3_wait_trichotomy (c : Context) (expected : Str) (polls : List (Option Str))
    (exitCache : Cache) (a : MessageAuthor) (uid : Str) (now : Nat)
    (hi : c.intents = true) (ha : c.message.author = Option.some a)
    (hu : a.userId = Option.some uid) :
    (polls.findSome? id = Option.some expected →
      (wait_for_message c expected polls exitCache).1 =
        Except.ok (Option.some c.message) ∧
      ((wait_for_message c expected polls exitCache).2).get now
        (cacheKey c.message.chatId uid) = Option.none) ∧
    (∀ v, polls.findSome? id = Option.some v → v ≠ expected →
      (wait_for_message c expected polls exitCache).1 = Except.ok Option.none ∧
      ((wait_for_message c expected polls exitCache).2).get now
        (cacheKey c.message.chatId uid) = Option.none) ∧
    (polls.findSome? id = Option.none →
      (wait_for_message c expected polls exitCache).1 = Except.ok Option.none ∧
      ((wait_for_message c expected polls exitCache).2).get now
        (cacheKey c.message.chatId uid) = Option.none) := by
  have hw : wait_for_message c expected polls exitCache =
      (match waitScan expected polls with
        | WaitOutcome.matched =>
          (Except.ok (Option.some c.message), Cache.clear exitCache)
        | WaitOutcome.mismatched => (Except.ok Option.none, Cache.clear exitCache)
        | WaitOutcome.timedOut => (Except.ok Option.none, Cache.clear exitCache)) := by
    simp only [wait_for_message, hi, ha]
    rfl
  refine ⟨fun hf => ?_, fun v hf hne => ?_, fun hf => ?_⟩
  · rw [hw]
    simp [waitScan_classify, hf, Cache.clear, Cache.get]
  · rw [hw]
    simp [waitScan_classify, hf, hne, Cache.clear, Cache.get]
  · rw [hw]
    simp [waitScan_classify, hf, Cache.clear, Cache.get]

/-- Witness for C3, exercising the matched outcome of the spec example:
the expected reply is recorded at the second poll. -/
theorem C3_wait_trichotomy_witness :
    (Context.mk msgHello true).intents = true ∧
    ([Option.none, Option.some (str "$verify")].findSome? id =
      Option.some (str "$verify")) ∧
    ((wait_for_message (Context.mk msgHello true) (str "$verify")
        [Option.none, Option.some (str "$verify")] twoKeyCache).1 =
      Except.ok (Option.some msgHello) ∧
    ((wait_for_message (Context.mk msgHello true) (str "$verify")
        [Option.none, Option.some (str "$verify")] twoKeyCache).2).get 10
      (cacheKey msgHello.chatId (str "u1")) = Option.none) :=
  ⟨rfl, by decide,
    (C3_wait_trichotomy (Context.mk msgHello true) (str "$verify")
      [Option.none, Option.some (str "$verify")] twoKeyCache alice (str "u1") 10
      rfl rfl rfl).1 (by decide)⟩

end Boopymino
